import Mathlib

/-!
Shallow embedding of `src/pubmed_server.py` (a PubMed query/retrieval server).

Conventions of the embedding:
* Python exceptions are modelled by `Except PyErr`; a caught exception is an
  `Except.error` value that the embedded control flow inspects.
* The network is modelled by oracle functions passed as parameters; every
  embedded operation additionally returns the number of network round trips it
  performed, so that "no network request is issued" is a provable statement.
* Python dictionaries produced by the parser are modelled by structures (the
  source always populates every key), while the defensively-read dictionary
  consumed by `generate_citation` is modelled with `Option`-valued fields so
  that an absent key is representable (`dict.get` returning `None`).
* Python string truthiness (`if s:`) is `¬ s.isEmpty` for a `String` and
  `pyTruthy` for an `Option String`.
-/

namespace PubmedServer

/-- Python exceptions are modelled opaquely by their message string. -/
abbrev PyErr := String

/-- Config.ARTICLE_VIEW_BASE from the source. -/
def Config.ARTICLE_VIEW_BASE : String := "https://pubmed.ncbi.nlm.nih.gov"

/-- Config.RETRY_ATTEMPTS from the source (an `Int`, since the Python `retries`
parameter is an unrestricted integer). -/
def Config.RETRY_ATTEMPTS : Int := 3

/-- QueryBuilder.create_author_clause: empty input gives the empty clause,
otherwise the names are suffixed with the Author field tag, OR-joined and
parenthesised. -/
def QueryBuilder.create_author_clause (names : List String) : String :=
  if names.isEmpty then "" else
    "(" ++ String.intercalate (" OR ") (names.map (fun name => name ++ "[Author]")) ++ ")"

/-- QueryBuilder.create_keyword_clause: same shape with the Title/Abstract tag. -/
def QueryBuilder.create_keyword_clause (terms : List String) : String :=
  if terms.isEmpty then "" else
    "(" ++ String.intercalate (" OR ") (terms.map (fun term => term ++ "[Title/Abstract]")) ++ ")"

/-- QueryBuilder.combine_clauses: AND-join of the non-empty clauses. -/
def QueryBuilder.combine_clauses (clauses : List String) : String :=
  String.intercalate (" AND ") (clauses.filter (fun clause => !clause.isEmpty))

/-- One iteration state of the retry loop in `make_api_request`.  The transport
oracle gives the outcome of `requests.get` + `raise_for_status` on attempt `i`
(0-based): a response or a raised `RequestException`.  The result pairs the
function outcome with the number of attempts performed; `Except.ok none`
models the Python function falling off the end of the loop and implicitly
returning `None`. -/
def apiAttemptLoop {R : Type} (transport : Nat → Except PyErr R) (retries : Int)
    (attempt : Nat) : Except PyErr (Option R) × Nat :=
  if _h : (attempt : Int) < retries then
    match transport attempt with
    | Except.ok resp => (Except.ok (some resp), 1)
    | Except.error e =>
      if (attempt : Int) + 1 = retries then (Except.error e, 1)
      else
        let rest := apiAttemptLoop transport retries (attempt + 1)
        (rest.1, rest.2 + 1)
  else (Except.ok none, 0)
termination_by (retries - (attempt : Int)).toNat
decreasing_by omega

/-- make_api_request: run the retry loop from attempt 0. -/
def make_api_request {R : Type} (transport : Nat → Except PyErr R) (retries : Int) :
    Except PyErr (Option R) × Nat :=
  apiAttemptLoop transport retries 0

/-- Oracle for one esearch round trip: `make_api_request` on esearch.fcgi plus
`response.json()` plus idlist/count extraction, for a given query and retmax;
`Except.error` covers an exception raised anywhere in that block. -/
abbrev SearchOracle := String → Nat → Except PyErr (List String × Nat)

/-- retrieve_article_ids: empty query short-circuits to `([], 0)` with no
network call; any exception from the call or parsing is caught and converted
to `([], 0)`.  The second component counts the search round trips issued. -/
def retrieve_article_ids (esearch : SearchOracle) (search_query : String)
    (max_count : Nat) : (List String × Nat) × Nat :=
  if search_query.isEmpty then (([], 0), 0)
  else
    match esearch search_query max_count with
    | Except.ok idsAndCount => (idsAndCount, 1)
    | Except.error _ => (([], 0), 1)

/-- A parsed XML element (ElementTree model): tag, attributes, text content
(`none` when the element has no text node) and child elements in document
order. -/
inductive XMLElem : Type where
  | mk (tag : String) (attrs : List (String × String)) (text : Option String)
      (children : List XMLElem)

/-- The tag of an element. -/
def XMLElem.tag : XMLElem → String
  | XMLElem.mk t _ _ _ => t

/-- The attribute list of an element. -/
def XMLElem.attrs : XMLElem → List (String × String)
  | XMLElem.mk _ a _ _ => a

/-- The text of an element. -/
def XMLElem.text : XMLElem → Option String
  | XMLElem.mk _ _ x _ => x

/-- The children of an element. -/
def XMLElem.children : XMLElem → List XMLElem
  | XMLElem.mk _ _ _ cs => cs

/-- Attribute lookup, `element.get(name)` in ElementTree. -/
def XMLElem.getAttr (e : XMLElem) (a : String) : Option String :=
  e.attrs.lookup a

/-- All elements of a forest together with their proper descendants, in
document order. -/
def descList : List XMLElem → List XMLElem
  | [] => []
  | XMLElem.mk t a x cs :: rest =>
      XMLElem.mk t a x cs :: (descList cs ++ descList rest)

/-- The proper descendants of an element in document order. -/
def XMLElem.descendants (e : XMLElem) : List XMLElem := descList e.children

/-- One step of the restricted ElementPath language used by the source:
a direct-child tag test, a descendant tag test (a leading ".//"), or a
descendant tag test with an attribute-equality predicate. -/
inductive PathStep : Type where
  | child (tag : String)
  | desc (tag : String)
  | descAttr (tag attrName attrVal : String)

/-- Apply one path step to a node set, in document order. -/
def stepSelect (es : List XMLElem) : PathStep → List XMLElem
  | PathStep.child t => es.flatMap (fun e => e.children.filter (fun c => c.tag == t))
  | PathStep.desc t => es.flatMap (fun e => e.descendants.filter (fun c => c.tag == t))
  | PathStep.descAttr t a v =>
      es.flatMap (fun e =>
        e.descendants.filter (fun c => c.tag == t && c.getAttr a == some v))

/-- `element.findall(path)`: all matches of the path relative to `e`. -/
def findallPath (e : XMLElem) (p : List PathStep) : List XMLElem :=
  p.foldl stepSelect [e]

/-- `element.findtext(path)`: the text of the first match (the empty string
when the matched element has no text node), or `none` when there is no
match — exactly ElementTree semantics. -/
def findtextPath (e : XMLElem) (p : List PathStep) : Option String :=
  (findallPath e p).head?.map (fun el => el.text.getD (""))

/-- Oracle for one efetch round trip: `make_api_request` on efetch.fcgi for a
comma-joined id string plus `ET.fromstring` on the body; `Except.error` covers
an exception raised anywhere in that block. -/
abbrev FetchOracle := String → Except PyErr XMLElem

/-- fetch_article_metadata: empty id list returns `none` immediately with no
network call; any exception from the call or XML parsing is caught and
converted to `none`.  The second component counts the fetch round trips. -/
def fetch_article_metadata (efetch : FetchOracle) (article_ids : List String) :
    Option XMLElem × Nat :=
  if article_ids.isEmpty then (none, 0)
  else
    match efetch (String.intercalate (",") article_ids) with
    | Except.ok root => (some root, 1)
    | Except.error _ => (none, 1)

/-- ArticleParser.extract_text: `findtext` then Python truthiness — a missing
path or an empty text yields the default. -/
def ArticleParser.extract_text (element : XMLElem) (xpath : List PathStep)
    (default : String) : String :=
  match findtextPath element xpath with
  | none => default
  | some result => if result.isEmpty then default else result

/-- One author entry of an ArticleRecord. -/
structure AuthorRec where
  lastname : String
  forename : String
  initials : String
  full_name : String
deriving DecidableEq

/-- The journal sub-record of an ArticleRecord. -/
structure JournalInfo where
  name : String
  volume : String
  issue : String
  pages : String
deriving DecidableEq

/-- One normalized article record as built by ArticleParser.process_articles;
the Python dict literal assigns every key, so a structure is faithful. -/
structure ArticleRecord where
  id : String
  url : String
  title : String
  journal : JournalInfo
  publication_date : String
  doi : String
  abstract : String
  authors : List AuthorRec
  keywords : List String
deriving DecidableEq

/-- ArticleParser.extract_authors: every Author descendant with at least one
of LastName/ForeName/Initials non-empty contributes one entry, in document
order; full_name prefers the forename over the initials. -/
def ArticleParser.extract_authors (article : XMLElem) : List AuthorRec :=
  (findallPath article [PathStep.desc ("Author")]).filterMap (fun author_elem =>
    let lastname := ArticleParser.extract_text author_elem [PathStep.child ("LastName")] ("")
    let forename := ArticleParser.extract_text author_elem [PathStep.child ("ForeName")] ("")
    let initials := ArticleParser.extract_text author_elem [PathStep.child ("Initials")] ("")
    if !lastname.isEmpty || !forename.isEmpty || !initials.isEmpty then
      some (AuthorRec.mk lastname forename initials
        (if !forename.isEmpty then lastname ++ " " ++ forename
         else lastname ++ " " ++ initials))
    else none)

/-- ArticleParser.extract_keywords: the text of every Keyword descendant that
has truthy text, in document order. -/
def ArticleParser.extract_keywords (article : XMLElem) : List String :=
  (findallPath article [PathStep.desc ("Keyword")]).filterMap (fun keyword =>
    match keyword.text with
    | some t => if t.isEmpty then none else some t
    | none => none)

/-- The fixed relative paths used by process_articles. -/
def pPMID : List PathStep := [PathStep.desc ("PMID")]

/-- Path of the article title. -/
def pArticleTitle : List PathStep := [PathStep.desc ("ArticleTitle")]

/-- Path of the journal name. -/
def pJournalTitle : List PathStep := [PathStep.desc ("Journal"), PathStep.child ("Title")]

/-- Path of the journal volume. -/
def pJournalVolume : List PathStep :=
  [PathStep.desc ("Journal"), PathStep.child ("JournalIssue"), PathStep.child ("Volume")]

/-- Path of the journal issue. -/
def pJournalIssue : List PathStep :=
  [PathStep.desc ("Journal"), PathStep.child ("JournalIssue"), PathStep.child ("Issue")]

/-- Path of the pagination. -/
def pPages : List PathStep := [PathStep.desc ("Pagination"), PathStep.child ("MedlinePgn")]

/-- Path of the publication year. -/
def pPubYear : List PathStep := [PathStep.desc ("PubDate"), PathStep.child ("Year")]

/-- Path of the DOI (type-qualified ELocationID). -/
def pDoi : List PathStep := [PathStep.descAttr ("ELocationID") ("EIdType") ("doi")]

/-- Path of the abstract text. -/
def pAbstract : List PathStep := [PathStep.desc ("Abstract"), PathStep.child ("AbstractText")]

/-- The record built for one PubmedArticle node inside
ArticleParser.process_articles (the body of its for-loop). -/
def ArticleParser.processArticle (article : XMLElem) : ArticleRecord :=
  let pmid := ArticleParser.extract_text article pPMID ("N/A")
  ArticleRecord.mk pmid (Config.ARTICLE_VIEW_BASE ++ "/" ++ pmid)
    (ArticleParser.extract_text article pArticleTitle ("N/A"))
    (JournalInfo.mk (ArticleParser.extract_text article pJournalTitle ("N/A"))
      (ArticleParser.extract_text article pJournalVolume ("N/A"))
      (ArticleParser.extract_text article pJournalIssue ("N/A"))
      (ArticleParser.extract_text article pPages ("N/A")))
    (ArticleParser.extract_text article pPubYear ("N/A"))
    (ArticleParser.extract_text article pDoi ("N/A"))
    (ArticleParser.extract_text article pAbstract ("N/A"))
    (ArticleParser.extract_authors article)
    (ArticleParser.extract_keywords article)

/-- ArticleParser.process_articles: `None` input yields the empty list,
otherwise one record per PubmedArticle node in document order. -/
def ArticleParser.process_articles (root_element : Option XMLElem) : List ArticleRecord :=
  match root_element with
  | none => []
  | some root =>
      (findallPath root [PathStep.desc ("PubmedArticle")]).map ArticleParser.processArticle

/-- The response envelope of find_articles.  Keys that only some branches of
the Python function put into the dict are `Option`-valued. -/
structure FindResult where
  status : String
  message : String
  total_available : Option Nat
  retrieved : Option Nat
  articles : List ArticleRecord
deriving DecidableEq

/-- find_articles: build the query from the author and topic clauses, validate,
search, fetch, parse.  The second component counts the network round trips
(search plus fetch); the elapsed-time performance field of the source is real
time and is not modelled. -/
def find_articles (esearch : SearchOracle) (efetch : FetchOracle)
    (topics researchers : List String) (result_limit : Nat) : FindResult × Nat :=
  let author_clause := QueryBuilder.create_author_clause researchers
  let topic_clause := QueryBuilder.create_keyword_clause topics
  let query := QueryBuilder.combine_clauses [author_clause, topic_clause]
  if query.isEmpty then
    (FindResult.mk ("error") ("Search requires at least one topic or researcher name")
      none none [], 0)
  else
    let sres := retrieve_article_ids esearch query result_limit
    let article_ids := sres.1.1
    let total_count := sres.1.2
    if article_ids.isEmpty then
      (FindResult.mk ("success") ("No articles found matching the search criteria")
        (some 0) none [], sres.2)
    else
      let fres := fetch_article_metadata efetch article_ids
      let articles := ArticleParser.process_articles fres.1
      (FindResult.mk ("success")
        ("Found " ++ toString total_count ++ " articles, returning " ++ toString articles.length)
        (some total_count) (some articles.length) articles, sres.2 + fres.2)

/-- An author dict as read defensively by generate_citation (`author.get`). -/
structure PyAuthor where
  lastname : Option String
  forename : Option String
  initials : Option String
  full_name : Option String
deriving DecidableEq

/-- A journal dict as read defensively by generate_citation. -/
structure PyJournal where
  name : Option String
  volume : Option String
  issue : Option String
  pages : Option String
deriving DecidableEq

/-- An article dict as read defensively by generate_citation: every key may be
absent (`dict.get` returns `None`). -/
structure PyArticle where
  title : Option String
  journal : Option PyJournal
  publication_date : Option String
  doi : Option String
  authors : Option (List PyAuthor)
deriving DecidableEq

/-- Python truthiness of an optional string: `None` and the empty string are
falsy. -/
def pyTruthy : Option String → Bool
  | none => false
  | some s => !s.isEmpty

/-- `dict.get(key, "")`. -/
def pyGetS (o : Option String) : String := o.getD ("")

/-- `article.get("journal", \x7b\x7d)`: the journal dict, defaulting to an
empty dict. -/
def journalOf (article : PyArticle) : PyJournal :=
  article.journal.getD (PyJournal.mk none none none none)

/-- How generate_citation renders one author: lastname, space, initials. -/
def renderAuthor (author : PyAuthor) : String :=
  pyGetS author.lastname ++ " " ++ pyGetS author.initials

/-- The author token list built by generate_citation: the first six authors
rendered, plus the literal extra entry when more than six exist. -/
def citationAuthorList (article : PyArticle) : List String :=
  let authors := article.authors.getD []
  let author_list := (authors.take 6).map renderAuthor
  if authors.length > 6 then author_list ++ ["et al"] else author_list

/-- generate_citation: the fixed head format followed by the conditional
issue, pages, period and doi segments.  The source wraps the body in a
try/except returning a sentinel string; the embedded body is total, so the
handler is unreachable and not modelled. -/
def generate_citation (article : PyArticle) : String :=
  let authors_text := String.intercalate (", ") (citationAuthorList article)
  let journal := journalOf article
  let citation := authors_text ++ ". " ++ pyGetS article.title ++ ". " ++
    pyGetS journal.name ++ ". " ++ pyGetS article.publication_date ++ ";" ++
    pyGetS journal.volume
  let citation := if pyTruthy journal.issue then
    citation ++ "(" ++ pyGetS journal.issue ++ ")" else citation
  let citation := if pyTruthy journal.pages then
    citation ++ ":" ++ pyGetS journal.pages else citation
  let citation := citation ++ "."
  if pyTruthy article.doi then citation ++ " doi: " ++ pyGetS article.doi else citation

/-- Insertion-ordered counter update: `d[k] = d.get(k, 0) + 1` on a Python
dict modelled as an association list (first occurrence is updated in place, a
new key is appended). -/
def incr : List (String × Nat) → String → List (String × Nat)
  | [], key => [(key, 1)]
  | (k, n) :: rest, key =>
      if k == key then (k, n + 1) :: rest else (k, n) :: incr rest key

/-- Build the counter dict of a key list, in encounter order. -/
def tally (keys : List String) : List (String × Nat) := keys.foldl incr []

/-- Stable insertion into a descending-sorted list: the new element goes in
front of the first element it may precede (`le x y`), hence in front of every
element with an equal key — the stability contract of Python `sorted`. -/
def pyInsertDesc {α : Type} (le : α → α → Bool) (x : α) : List α → List α
  | [] => [x]
  | y :: ys => if le x y then x :: y :: ys else y :: pyInsertDesc le x ys

/-- Stable sort putting `le`-larger elements first; models Python
`sorted(items, key=k, reverse=True)` when `le a b` decides `k b <= k a`. -/
def pySortedDesc {α : Type} (le : α → α → Bool) : List α → List α
  | [] => []
  | x :: xs => pyInsertDesc le x (pySortedDesc le xs)

/-- Lexicographic comparison of char lists by code point — Python string
comparison. -/
def charListLe : List Char → List Char → Bool
  | [], _ => true
  | _ :: _, [] => false
  | c :: cs, d :: ds =>
      if c.val < d.val then true else if d.val < c.val then false else charListLe cs ds

/-- Python string `<=`. -/
def pyStrLe (a b : String) : Bool := charListLe a.data b.data

/-- Comparator of `sorted(journals.items(), key=lambda x: x[1], reverse=True)`:
descending by count. -/
def journalLe (p q : String × Nat) : Bool := Nat.ble q.2 p.2

/-- Comparator of `sorted(years.items(), key=lambda x: x[0], reverse=True)`:
descending by year string. -/
def yearLe (p q : String × Nat) : Bool := pyStrLe q.1 p.1

/-- The journal names tallied by get_article_statistics: one per article,
skipping falsy and N/A names. -/
def journalNames (articles : List ArticleRecord) : List String :=
  (articles.map (fun a => a.journal.name)).filter (fun j => !j.isEmpty && j != "N/A")

/-- The year strings tallied by get_article_statistics, skipping falsy and
N/A years. -/
def yearStrings (articles : List ArticleRecord) : List String :=
  (articles.map (fun a => a.publication_date)).filter (fun y => !y.isEmpty && y != "N/A")

/-- The top_journals list of get_article_statistics: counts per journal,
stably sorted by descending count, first five kept. -/
def top_journalsOf (articles : List ArticleRecord) : List (String × Nat) :=
  (pySortedDesc journalLe (tally (journalNames articles))).take 5

/-- The publication_years list of get_article_statistics: counts per year,
stably sorted by descending year string. -/
def publication_yearsOf (articles : List ArticleRecord) : List (String × Nat) :=
  pySortedDesc yearLe (tally (yearStrings articles))

/-- Python `str.strip()` (whitespace at both ends removed). -/
def pyStrip (s : String) : String :=
  String.mk (((s.data.dropWhile Char.isWhitespace).reverse.dropWhile Char.isWhitespace).reverse)

/-- The response envelope of get_article_statistics; branch-dependent keys are
`Option`-valued. -/
structure StatsResult where
  status : String
  message : Option String
  researcher : Option String
  total_publications : Option Nat
  recent_sample_size : Option Nat
  top_journals : Option (List (String × Nat))
  publication_years : Option (List (String × Nat))
  sample_titles : Option (List String)
deriving DecidableEq

/-- get_article_statistics: validate the name, search with an author-only
query for up to 100 ids, fetch details of the first 10, tally journals and
years and rank them.  The second component counts network round trips. -/
def get_article_statistics (esearch : SearchOracle) (efetch : FetchOracle)
    (researcher : String) : StatsResult × Nat :=
  if researcher.isEmpty || (pyStrip researcher).isEmpty then
    (StatsResult.mk ("error") (some ("Researcher name is required"))
      none none none none none none, 0)
  else
    let query := researcher ++ "[Author]"
    let sres := retrieve_article_ids esearch query 100
    let article_ids := sres.1.1
    let total_count := sres.1.2
    if !article_ids.isEmpty then
      let fres := fetch_article_metadata efetch (article_ids.take 10)
      let articles := ArticleParser.process_articles fres.1
      (StatsResult.mk ("success") none (some researcher) (some total_count)
        (some articles.length) (some (top_journalsOf articles))
        (some (publication_yearsOf articles))
        (some ((articles.take 5).map (fun a => a.title))), sres.2 + fres.2)
    else
      (StatsResult.mk ("success") (some ("No publications found for this researcher"))
        (some researcher) (some 0) none none none none, sres.2)

/-- The subsequence of first occurrences of a key list relative to the keys
already seen — the specification-side notion of first-encounter order. -/
def firstEncounterAux (seen : List String) : List String → List String
  | [] => []
  | x :: xs =>
      if seen.contains x then firstEncounterAux seen xs
      else x :: firstEncounterAux (x :: seen) xs

/-- The order in which each distinct key of a list is first encountered. -/
def firstEncounterOrder (l : List String) : List String := firstEncounterAux [] l

/-- Fixture: an article record carrying only a publication year. -/
def yrRec (y : String) : ArticleRecord :=
  ArticleRecord.mk ("1") ("u") ("t") (JournalInfo.mk ("N/A") ("N/A") ("N/A") ("N/A"))
    y ("N/A") ("N/A") [] []

/-! ### Small evaluation facts -/

/-- The empty string is empty. -/
theorem string_isEmpty_nil : ("" : String).isEmpty = true := rfl

/-- Rendering of the zero count. -/
theorem toString_nat_zero : toString (0 : Nat) = "0" := rfl

/-- Combining two empty clauses yields the empty query. -/
theorem combine_clauses_both_empty : QueryBuilder.combine_clauses ["", ""] = "" := rfl

/-- Rendering of the returned-count suffix at zero. -/
theorem returning_zero_append :
    (" articles, returning " ++ "0" : String) = " articles, returning 0" := by decide

/-- Merging the trailing period with the doi prefix. -/
theorem dot_doi_append (s : String) :
    ("." : String) ++ (" doi: " ++ s) = ". doi: " ++ s := by
  rw [← String.append_assoc]
  rw [(by decide : ("." ++ " doi: " : String) = ". doi: ")]

/-! ### Lemmas about the retry loop -/

/-- Unfolding: a successful attempt ends the loop with one call. -/
theorem apiAttemptLoop_ok {R : Type} {transport : Nat → Except PyErr R} {retries : Int}
    {attempt : Nat} {resp : R} (h : (attempt : Int) < retries)
    (hok : transport attempt = Except.ok resp) :
    apiAttemptLoop transport retries attempt = (Except.ok (some resp), 1) := by
  rw [apiAttemptLoop, dif_pos h, hok]

/-- Unfolding: a failure on the final allowed attempt re-raises with one call. -/
theorem apiAttemptLoop_err_last {R : Type} {transport : Nat → Except PyErr R} {retries : Int}
    {attempt : Nat} {e : PyErr} (h : (attempt : Int) < retries)
    (he : transport attempt = Except.error e) (hlast : (attempt : Int) + 1 = retries) :
    apiAttemptLoop transport retries attempt = (Except.error e, 1) := by
  rw [apiAttemptLoop, dif_pos h, he]
  simp [hlast]

/-- Unfolding: a failure on a non-final attempt recurses, adding one call. -/
theorem apiAttemptLoop_err_next {R : Type} {transport : Nat → Except PyErr R} {retries : Int}
    {attempt : Nat} {e : PyErr} (h : (attempt : Int) < retries)
    (he : transport attempt = Except.error e) (hnext : ¬ (attempt : Int) + 1 = retries) :
    apiAttemptLoop transport retries attempt =
      ((apiAttemptLoop transport retries (attempt + 1)).1,
        (apiAttemptLoop transport retries (attempt + 1)).2 + 1) := by
  rw [apiAttemptLoop, dif_pos h, he]
  simp [hnext]

/-- Unfolding: once the attempt counter reaches the budget, the loop exits and
the function falls off the end. -/
theorem apiAttemptLoop_done {R : Type} {transport : Nat → Except PyErr R} {retries : Int}
    {attempt : Nat} (h : ¬ (attempt : Int) < retries) :
    apiAttemptLoop transport retries attempt = (Except.ok none, 0) := by
  rw [apiAttemptLoop, dif_neg h]

/-- Claim C2: with the default budget RETRY_ATTEMPTS = 3, if every attempt
fails then make_api_request performs exactly three request attempts and
re-raises the final failure, and if the k-th attempt is the first success for
some k between 1 and 3 then it performs exactly k attempts and returns that
response. -/
theorem make_api_request_retry_contract {R : Type} (transport : Nat → Except PyErr R) :
    (∀ e0 e1 e2, transport 0 = Except.error e0 → transport 1 = Except.error e1 →
      transport 2 = Except.error e2 →
      make_api_request transport Config.RETRY_ATTEMPTS = (Except.error e2, 3)) ∧
    (∀ k resp, 1 ≤ k → k ≤ 3 →
      (∀ i, i < k - 1 → ∃ e, transport i = Except.error e) →
      transport (k - 1) = Except.ok resp →
      make_api_request transport Config.RETRY_ATTEMPTS = (Except.ok (some resp), k)) := by
  constructor
  · intro e0 e1 e2 h0 h1 h2
    unfold make_api_request Config.RETRY_ATTEMPTS
    rw [apiAttemptLoop_err_next (by decide) h0 (by decide),
      apiAttemptLoop_err_next (by decide) h1 (by decide),
      apiAttemptLoop_err_last (by decide) h2 (by decide)]
  · intro k resp hk1 hk3 hfail hok
    unfold make_api_request Config.RETRY_ATTEMPTS
    interval_cases k
    · exact apiAttemptLoop_ok (by decide) hok
    · obtain ⟨e0, h0⟩ := hfail 0 (by decide)
      rw [apiAttemptLoop_err_next (by decide) h0 (by decide),
        apiAttemptLoop_ok (by decide) hok]
    · obtain ⟨e0, h0⟩ := hfail 0 (by decide)
      obtain ⟨e1, h1⟩ := hfail 1 (by decide)
      rw [apiAttemptLoop_err_next (by decide) h0 (by decide),
        apiAttemptLoop_err_next (by decide) h1 (by decide),
        apiAttemptLoop_ok (by decide) hok]

/-- Witness for claim C2: a transport that fails twice and succeeds on the
third attempt yields exactly three calls and the successful response. -/
theorem make_api_request_retry_contract_witness :
    make_api_request (fun i => if i < 2 then Except.error ("boom") else Except.ok ("resp"))
      Config.RETRY_ATTEMPTS = (Except.ok (some ("resp")), 3) :=
  (make_api_request_retry_contract
      (fun i => if i < 2 then Except.error ("boom") else Except.ok ("resp"))).2 3 ("resp")
    (by decide) (by decide)
    (fun i hi => ⟨("boom"), by interval_cases i <;> rfl⟩) rfl

/-- Claim C9: calling make_api_request with a non-positive retry budget makes
no request attempt, raises nothing, and falls off the loop returning None —
the documented response-or-raise contract does not hold there. -/
theorem make_api_request_nonpositive_retries {R : Type}
    (transport : Nat → Except PyErr R) (retries : Int) (h : retries ≤ 0) :
    make_api_request transport retries = (Except.ok none, 0) := by
  unfold make_api_request
  exact apiAttemptLoop_done (by omega)

/-- Witness for claim C9 at a zero retry budget. -/
theorem make_api_request_nonpositive_retries_witness :
    make_api_request (fun _ => Except.error ("boom") : Nat → Except PyErr String) 0 =
      (Except.ok none, 0) :=
  make_api_request_nonpositive_retries (fun _ => Except.error ("boom")) 0 (by decide)

/-- Claim C1: retrieve_article_ids short-circuits the empty query to
`([], 0)` with no network call, and converts any raised exception from the
search round trip into `([], 0)` instead of propagating it. -/
theorem retrieve_article_ids_fail_soft (esearch : SearchOracle) :
    (∀ max_count, retrieve_article_ids esearch ("") max_count = (([], 0), 0)) ∧
    (∀ search_query max_count e, esearch search_query max_count = Except.error e →
      (retrieve_article_ids esearch search_query max_count).1 = ([], 0)) := by
  constructor
  · intro max_count
    simp [retrieve_article_ids, string_isEmpty_nil]
  · intro search_query max_count e he
    unfold retrieve_article_ids
    by_cases hq : search_query.isEmpty <;> simp [hq, he]

/-- Witness for claim C1: a raising search oracle yields `([], 0)`. -/
theorem retrieve_article_ids_fail_soft_witness :
    (retrieve_article_ids (fun _ _ => Except.error ("boom")) ("cancer") 7).1 = ([], 0) :=
  (retrieve_article_ids_fail_soft (fun _ _ => Except.error ("boom"))).2 ("cancer") 7 ("boom") rfl

/-- Claim C3: when both input lists produce empty clauses (equivalently, both
are empty), find_articles returns the fixed validation-error envelope with an
empty article list and performs no network request. -/
theorem find_articles_empty_validation (esearch : SearchOracle) (efetch : FetchOracle)
    (topics researchers : List String) (result_limit : Nat)
    (ht : QueryBuilder.create_keyword_clause topics = "")
    (hr : QueryBuilder.create_author_clause researchers = "") :
    find_articles esearch efetch topics researchers result_limit =
      (FindResult.mk ("error") ("Search requires at least one topic or researcher name")
        none none [], 0) := by
  unfold find_articles
  rw [ht, hr]
  simp [combine_clauses_both_empty, string_isEmpty_nil]

/-- Witness for claim C3 at `topics = []`, `researchers = []`. -/
theorem find_articles_empty_validation_witness :
    find_articles (fun _ _ => Except.error ("net")) (fun _ => Except.error ("net")) [] [] 15 =
      (FindResult.mk ("error") ("Search requires at least one topic or researcher name")
        none none [], 0) :=
  find_articles_empty_validation (fun _ _ => Except.error ("net"))
    (fun _ => Except.error ("net")) [] [] 15 rfl rfl

/-- Claim C10: when the search step yields a non-empty id list but the fetch
step raises, find_articles still answers with a success envelope carrying the
server-reported total, a retrieved count of zero and an empty article list —
the fetch failure is not surfaced as an error envelope. -/
theorem find_articles_fetch_failure (esearch : SearchOracle) (efetch : FetchOracle)
    (topics researchers : List String) (result_limit : Nat)
    (ids : List String) (total : Nat) (e : PyErr)
    (hq : (QueryBuilder.combine_clauses [QueryBuilder.create_author_clause researchers,
      QueryBuilder.create_keyword_clause topics]).isEmpty = false)
    (hs : esearch (QueryBuilder.combine_clauses [QueryBuilder.create_author_clause researchers,
      QueryBuilder.create_keyword_clause topics]) result_limit = Except.ok (ids, total))
    (hids : ids.isEmpty = false)
    (hf : efetch (String.intercalate (",") ids) = Except.error e) :
    find_articles esearch efetch topics researchers result_limit =
      (FindResult.mk ("success") ("Found " ++ toString total ++ " articles, returning 0")
        (some total) (some 0) [], 2) := by
  unfold find_articles
  simp only [hq, Bool.false_eq_true, if_false]
  unfold retrieve_article_ids
  simp only [hq, Bool.false_eq_true, if_false, hs]
  simp only [hids, Bool.false_eq_true, if_false]
  unfold fetch_article_metadata
  simp only [hids, Bool.false_eq_true, if_false, hf]
  simp only [ArticleParser.process_articles, List.length_nil, toString_nat_zero,
    String.append_assoc, returning_zero_append]

/-- Witness for claim C10 with a one-id search result and a raising fetch. -/
theorem find_articles_fetch_failure_witness :
    find_articles (fun _ _ => Except.ok (["11"], 42)) (fun _ => Except.error ("boom"))
      [("gene")] [] 5 =
      (FindResult.mk ("success") ("Found " ++ toString 42 ++ " articles, returning 0")
        (some 42) (some 0) [], 2) :=
  find_articles_fetch_failure (fun _ _ => Except.ok (["11"], 42))
    (fun _ => Except.error ("boom")) [("gene")] [] 5 ["11"] 42 ("boom") rfl rfl rfl rfl

/-! ### Parser claims -/

/-- Claim C4: every record built by process_articles carries every field; a
scalar field whose path is missing or empty in the article node holds the
default N/A, authors and keywords default to empty lists, and extract_text is
total — a missing path yields the default rather than an error. -/
theorem process_articles_fully_populated :
    (∀ element xpath default,
      (findtextPath element xpath = none ∨ findtextPath element xpath = some ("")) →
      ArticleParser.extract_text element xpath default = default) ∧
    (∀ root, ArticleParser.process_articles (some root) =
      (findallPath root [PathStep.desc ("PubmedArticle")]).map ArticleParser.processArticle) ∧
    (∀ article : XMLElem,
      (ArticleParser.processArticle article).url =
        Config.ARTICLE_VIEW_BASE ++ "/" ++ (ArticleParser.processArticle article).id ∧
      ((findtextPath article pPMID = none ∨ findtextPath article pPMID = some ("")) →
        (ArticleParser.processArticle article).id = "N/A") ∧
      ((findtextPath article pArticleTitle = none ∨
          findtextPath article pArticleTitle = some ("")) →
        (ArticleParser.processArticle article).title = "N/A") ∧
      ((findtextPath article pJournalTitle = none ∨
          findtextPath article pJournalTitle = some ("")) →
        (ArticleParser.processArticle article).journal.name = "N/A") ∧
      ((findtextPath article pJournalVolume = none ∨
          findtextPath article pJournalVolume = some ("")) →
        (ArticleParser.processArticle article).journal.volume = "N/A") ∧
      ((findtextPath article pJournalIssue = none ∨
          findtextPath article pJournalIssue = some ("")) →
        (ArticleParser.processArticle article).journal.issue = "N/A") ∧
      ((findtextPath article pPages = none ∨ findtextPath article pPages = some ("")) →
        (ArticleParser.processArticle article).journal.pages = "N/A") ∧
      ((findtextPath article pPubYear = none ∨ findtextPath article pPubYear = some ("")) →
        (ArticleParser.processArticle article).publication_date = "N/A") ∧
      ((findtextPath article pDoi = none ∨ findtextPath article pDoi = some ("")) →
        (ArticleParser.processArticle article).doi = "N/A") ∧
      ((findtextPath article pAbstract = none ∨ findtextPath article pAbstract = some ("")) →
        (ArticleParser.processArticle article).abstract = "N/A") ∧
      (findallPath article [PathStep.desc ("Author")] = [] →
        (ArticleParser.processArticle article).authors = []) ∧
      (findallPath article [PathStep.desc ("Keyword")] = [] →
        (ArticleParser.processArticle article).keywords = [])) := by
  have hext : ∀ (element : XMLElem) (xpath : List PathStep) (default : String),
      (findtextPath element xpath = none ∨ findtextPath element xpath = some ("")) →
      ArticleParser.extract_text element xpath default = default := by
    intro element xpath default h
    rcases h with h | h <;> simp [ArticleParser.extract_text, h, string_isEmpty_nil]
  refine ⟨hext, fun root => rfl, fun article => ?_⟩
  refine ⟨by simp [ArticleParser.processArticle], ?_, ?_, ?_, ?_, ?_, ?_, ?_, ?_, ?_, ?_, ?_⟩
  · intro h; simp [ArticleParser.processArticle, hext article pPMID ("N/A") h]
  · intro h; simp [ArticleParser.processArticle, hext article pArticleTitle ("N/A") h]
  · intro h; simp [ArticleParser.processArticle, hext article pJournalTitle ("N/A") h]
  · intro h; simp [ArticleParser.processArticle, hext article pJournalVolume ("N/A") h]
  · intro h; simp [ArticleParser.processArticle, hext article pJournalIssue ("N/A") h]
  · intro h; simp [ArticleParser.processArticle, hext article pPages ("N/A") h]
  · intro h; simp [ArticleParser.processArticle, hext article pPubYear ("N/A") h]
  · intro h; simp [ArticleParser.processArticle, hext article pDoi ("N/A") h]
  · intro h; simp [ArticleParser.processArticle, hext article pAbstract ("N/A") h]
  · intro h; simp [ArticleParser.processArticle, ArticleParser.extract_authors, h]
  · intro h; simp [ArticleParser.processArticle, ArticleParser.extract_keywords, h]

/-- Witness for claim C4: an empty PubmedArticle node yields the default in
every scalar field and empty author and keyword lists. -/
theorem process_articles_fully_populated_witness :
    (findtextPath (XMLElem.mk ("PubmedArticle") [] none []) pPMID = none ∨
      findtextPath (XMLElem.mk ("PubmedArticle") [] none []) pPMID = some ("")) ∧
    (ArticleParser.processArticle (XMLElem.mk ("PubmedArticle") [] none [])).id = "N/A" ∧
    (ArticleParser.processArticle (XMLElem.mk ("PubmedArticle") [] none [])).authors = [] := by
  have hnone : findtextPath (XMLElem.mk ("PubmedArticle") [] none []) pPMID = none := by
    simp [findtextPath, findallPath, stepSelect, pPMID, XMLElem.descendants,
      XMLElem.children, descList]
  refine ⟨Or.inl hnone, ?_, ?_⟩
  · exact (process_articles_fully_populated.2.2
      (XMLElem.mk ("PubmedArticle") [] none [])).2.1 (Or.inl hnone)
  · exact (process_articles_fully_populated.2.2
      (XMLElem.mk ("PubmedArticle") [] none [])).2.2.2.2.2.2.2.2.2.2.1
      (by simp [findallPath, stepSelect, XMLElem.descendants, XMLElem.children, descList])

/-! ### Citation claims -/

/-- Claim C5: generate_citation is the fixed head format followed by the
issue segment exactly when the issue field is present (a truthy string),
then the pages segment exactly when pages is present, then the period, then
the doi segment exactly when the DOI is present; an absent field contributes
no segment. -/
theorem generate_citation_segments (article : PyArticle) :
    generate_citation article =
      String.intercalate (", ") (citationAuthorList article) ++ ". " ++
        pyGetS article.title ++ ". " ++ pyGetS (journalOf article).name ++ ". " ++
        pyGetS article.publication_date ++ ";" ++ pyGetS (journalOf article).volume ++
      (if pyTruthy (journalOf article).issue then
        "(" ++ pyGetS (journalOf article).issue ++ ")" else "") ++
      (if pyTruthy (journalOf article).pages then
        ":" ++ pyGetS (journalOf article).pages else "") ++
      "." ++
      (if pyTruthy article.doi then " doi: " ++ pyGetS article.doi else "") := by
  cases hissue : pyTruthy (journalOf article).issue <;>
    cases hpages : pyTruthy (journalOf article).pages <;>
    cases hdoi : pyTruthy article.doi <;>
    simp only [generate_citation, hissue, hpages, hdoi, Bool.false_eq_true,
      eq_self_iff_true, if_true, if_false, String.append_assoc, String.append_empty,
      String.empty_append]

/-- Claim C6: the citation author list is the first six authors rendered as
lastname-space-initials, with the single literal extra entry appended exactly
when more than six authors exist; it never exceeds seven entries. -/
theorem citation_author_limit (article : PyArticle) :
    ((article.authors.getD []).length > 6 →
      citationAuthorList article =
        ((article.authors.getD []).take 6).map renderAuthor ++ ["et al"] ∧
      (citationAuthorList article).length = 7) ∧
    ((article.authors.getD []).length ≤ 6 →
      citationAuthorList article = (article.authors.getD []).map renderAuthor) ∧
    (citationAuthorList article).length ≤ 7 := by
  refine ⟨fun h => ⟨by simp [citationAuthorList, h], ?_⟩, fun h => ?_, ?_⟩
  · simp [citationAuthorList, h, List.length_take]
    omega
  · have h6 : ¬ (article.authors.getD []).length > 6 := by omega
    simp [citationAuthorList, h6, List.take_of_length_le h]
  · by_cases h : (article.authors.getD []).length > 6
    · simp only [citationAuthorList, h, if_true, List.length_append, List.length_map,
        List.length_take, List.length_singleton]
      omega
    · simp only [citationAuthorList, h, if_false, List.length_map, List.length_take]
      omega

/-- Witness for claim C6: with eight identical authors the citation list is
six rendered authors followed by the literal extra entry, seven in all. -/
theorem citation_author_limit_witness :
    citationAuthorList (PyArticle.mk none none none none
        (some (List.replicate 8 (PyAuthor.mk (some ("Lee")) none (some ("J")) none)))) =
      ["Lee J", "Lee J", "Lee J", "Lee J", "Lee J", "Lee J", "et al"] ∧
    (citationAuthorList (PyArticle.mk none none none none
        (some (List.replicate 8 (PyAuthor.mk (some ("Lee")) none (some ("J")) none))))).length =
      7 := by
  have h := (citation_author_limit (PyArticle.mk none none none none
    (some (List.replicate 8 (PyAuthor.mk (some ("Lee")) none (some ("J")) none))))).1
    (by decide)
  exact ⟨h.1.trans (by decide), h.2⟩

/-! ### Lemmas about the stable sort and the tallies -/

/-- Membership in a stable insertion. -/
theorem pyInsertDesc_mem {α : Type} (le : α → α → Bool) (x : α) (l : List α) (z : α) :
    z ∈ pyInsertDesc le x l ↔ z = x ∨ z ∈ l := by
  induction l with
  | nil => simp [pyInsertDesc]
  | cons y ys ih =>
    cases hxy : le x y with
    | true => simp [pyInsertDesc, hxy]
    | false =>
      simp only [pyInsertDesc, hxy, Bool.false_eq_true, if_false, List.mem_cons, ih]
      tauto

/-- Stable insertion preserves pairwise sortedness for a total transitive
comparator. -/
theorem pyInsertDesc_pairwise {α : Type} {le : α → α → Bool}
    (htot : ∀ a b, le a b = false → le b a = true)
    (htrans : ∀ a b c, le a b = true → le b c = true → le a c = true)
    (x : α) {l : List α} (hl : List.Pairwise (fun a b => le a b = true) l) :
    List.Pairwise (fun a b => le a b = true) (pyInsertDesc le x l) := by
  induction l with
  | nil => simp [pyInsertDesc]
  | cons y ys ih =>
    rcases List.pairwise_cons.mp hl with ⟨hy, hys⟩
    cases hxy : le x y with
    | true =>
      rw [show pyInsertDesc le x (y :: ys) = x :: y :: ys from by simp [pyInsertDesc, hxy]]
      refine List.pairwise_cons.mpr ⟨?_, hl⟩
      intro z hz
      rcases List.mem_cons.mp hz with rfl | hz'
      · exact hxy
      · exact htrans x y z hxy (hy z hz')
    | false =>
      rw [show pyInsertDesc le x (y :: ys) = y :: pyInsertDesc le x ys from by
        simp [pyInsertDesc, hxy]]
      refine List.pairwise_cons.mpr ⟨?_, ih hys⟩
      intro z hz
      rcases (pyInsertDesc_mem le x ys z).mp hz with hz0 | hz'
      · rw [hz0]; exact htot x y hxy
      · exact hy z hz'

/-- The stable sort is pairwise sorted for a total transitive comparator. -/
theorem pySortedDesc_pairwise {α : Type} {le : α → α → Bool}
    (htot : ∀ a b, le a b = false → le b a = true)
    (htrans : ∀ a b c, le a b = true → le b c = true → le a c = true)
    (l : List α) :
    List.Pairwise (fun a b => le a b = true) (pySortedDesc le l) := by
  induction l with
  | nil => simp [pySortedDesc]
  | cons x xs ih => exact pyInsertDesc_pairwise htot htrans x ih

/-- Stability of insertion, phrased through filtering: for a predicate that a
strictly-greater element can never satisfy together with the inserted one,
insertion either prepends the new element to the filtered list or leaves it
unchanged. -/
theorem pyInsertDesc_filter {α : Type} {le : α → α → Bool} {p : α → Bool}
    (hpl : ∀ a b, le a b = false → p a = true → p b = false)
    (x : α) (l : List α) :
    (pyInsertDesc le x l).filter p = if p x then x :: l.filter p else l.filter p := by
  induction l with
  | nil => cases hpx : p x <;> simp [pyInsertDesc, List.filter, hpx]
  | cons y ys ih =>
    cases hxy : le x y with
    | true => simp [pyInsertDesc, hxy, List.filter_cons]
    | false =>
      cases hpx : p x with
      | false => simp [pyInsertDesc, hxy, List.filter_cons, ih, hpx]
      | true =>
        have hpy : p y = false := hpl x y hxy hpx
        simp [pyInsertDesc, hxy, List.filter_cons, ih, hpx, hpy]

/-- Stability of the sort: the elements satisfying such a predicate appear in
the sorted output exactly as they appear in the input. -/
theorem pySortedDesc_filter {α : Type} {le : α → α → Bool} {p : α → Bool}
    (hpl : ∀ a b, le a b = false → p a = true → p b = false) (l : List α) :
    (pySortedDesc le l).filter p = l.filter p := by
  induction l with
  | nil => rfl
  | cons x xs ih =>
    rw [show pySortedDesc le (x :: xs) = pyInsertDesc le x (pySortedDesc le xs) from rfl,
      pyInsertDesc_filter hpl, ih]
    cases hpx : p x <;> simp [List.filter_cons, hpx]

/-- Lookup after one counter update. -/
theorem incr_lookup (acc : List (String × Nat)) (x y : String) :
    (incr acc y).lookup x =
      if x = y then some ((acc.lookup x).getD 0 + 1) else acc.lookup x := by
  induction acc with
  | nil =>
    by_cases h : x = y
    · subst h; simp [incr, List.lookup, beq_self_eq_true]
    · have hb : (x == y) = false := beq_eq_false_iff_ne.mpr h
      simp [incr, List.lookup, hb, h]
  | cons kv rest ih =>
    obtain ⟨k, n⟩ := kv
    by_cases hky : k = y
    · subst hky
      by_cases hxk : x = k
      · subst hxk; simp [incr, List.lookup, beq_self_eq_true]
      · have hb : (x == k) = false := beq_eq_false_iff_ne.mpr hxk
        simp [incr, List.lookup, beq_self_eq_true, hb, hxk]
    · have hbk : (k == y) = false := beq_eq_false_iff_ne.mpr hky
      by_cases hxk : x = k
      · subst hxk
        have hxy : ¬ x = y := hky
        simp [incr, List.lookup, hbk, beq_self_eq_true, hxy]
      · have hbx : (x == k) = false := beq_eq_false_iff_ne.mpr hxk
        simp [incr, List.lookup, hbk, hbx, ih]

/-- Lookup of a folded counter counts occurrences. -/
theorem foldl_incr_lookup (l : List String) (acc : List (String × Nat)) (x : String) :
    ((l.foldl incr acc).lookup x).getD 0 = ((acc.lookup x).getD 0) + l.count x := by
  induction l generalizing acc with
  | nil => simp
  | cons y ys ih =>
    rw [List.foldl_cons, ih, incr_lookup]
    by_cases h : x = y
    · subst h
      simp [List.count_cons]
      omega
    · have h2 : ¬ y = x := fun hh => h hh.symm
      simp [List.count_cons, h, h2]

/-- Claim-level counting property of the tally: each key maps to its number
of occurrences. -/
theorem tally_lookup_count (l : List String) (x : String) :
    ((tally l).lookup x).getD 0 = l.count x := by
  simpa [tally, List.lookup] using foldl_incr_lookup l [] x

/-- Keys after one counter update: an existing key leaves the key list
unchanged, a new key is appended. -/
theorem incr_keys (acc : List (String × Nat)) (y : String) :
    (incr acc y).map Prod.fst =
      if (acc.map Prod.fst).contains y then acc.map Prod.fst
      else acc.map Prod.fst ++ [y] := by
  induction acc with
  | nil => simp [incr]
  | cons kv rest ih =>
    obtain ⟨k, n⟩ := kv
    by_cases h : k = y
    · subst h
      simp [incr, beq_self_eq_true, List.contains_cons]
    · have hb : (k == y) = false := beq_eq_false_iff_ne.mpr h
      have hb2 : (y == k) = false := beq_eq_false_iff_ne.mpr (Ne.symm h)
      simp only [incr, hb, Bool.false_eq_true, if_false, List.map_cons, ih,
        List.contains_cons, hb2, Bool.false_or]
      cases hc : (rest.map Prod.fst).contains y <;> simp

/-- The first-encounter subsequence only depends on the membership of the
seen list. -/
theorem firstEncounterAux_congr (l : List String) : ∀ seen1 seen2 : List String,
    (∀ a, seen1.contains a = seen2.contains a) →
    firstEncounterAux seen1 l = firstEncounterAux seen2 l := by
  induction l with
  | nil => intro s1 s2 _; rfl
  | cons x xs ih =>
    intro s1 s2 h
    simp only [firstEncounterAux, h x]
    cases hc : s2.contains x with
    | true => simp only [eq_self_iff_true, if_true]; exact ih s1 s2 h
    | false =>
      simp only [Bool.false_eq_true, if_false]
      exact congrArg (x :: ·) (ih (x :: s1) (x :: s2)
        (fun a => by simp only [List.contains_cons, h a]))

/-- Keys of a folded counter are the first encounters past the accumulator. -/
theorem foldl_incr_keys (l : List String) : ∀ acc : List (String × Nat),
    (l.foldl incr acc).map Prod.fst =
      acc.map Prod.fst ++ firstEncounterAux (acc.map Prod.fst) l := by
  induction l with
  | nil => intro acc; simp [firstEncounterAux]
  | cons x xs ih =>
    intro acc
    rw [List.foldl_cons, ih, incr_keys]
    cases hc : (acc.map Prod.fst).contains x with
    | true =>
      simp only [firstEncounterAux]
      rw [hc]
      simp
    | false =>
      simp only [firstEncounterAux]
      rw [hc]
      simp only [Bool.false_eq_true, if_false]
      rw [List.append_assoc]
      rw [firstEncounterAux_congr xs (acc.map Prod.fst ++ [x]) (x :: acc.map Prod.fst)
        (fun a => by
          cases hax : a == x
          · have hne : a ≠ x := ne_of_beq_false hax
            simp [List.contains_cons, hax, List.mem_append, hne]
          · have heq : a = x := eq_of_beq hax
            subst heq
            simp [List.contains_cons, hax, List.mem_append])]
      rfl

/-- Claim-level key-order property of the tally: the keys stand in
first-encounter order. -/
theorem tally_keys (l : List String) :
    (tally l).map Prod.fst = firstEncounterOrder l := by
  simpa [tally, firstEncounterOrder] using foldl_incr_keys l []

/-- The embedded code-point comparison is the complement of the strict
lexicographic order on character lists that underlies the string order. -/
theorem charListLe_iff (as : List Char) : ∀ bs : List Char,
    charListLe as bs = true ↔ ¬ List.lt bs as := by
  induction as with
  | nil =>
    intro bs
    refine iff_of_true rfl (fun h => nomatch h)
  | cons c cs ih =>
    intro bs
    cases bs with
    | nil =>
      refine iff_of_false ?_ (fun h => h (List.lt.nil c cs))
      simp [charListLe]
    | cons d ds =>
      simp only [charListLe]
      by_cases h1 : c.val < d.val
      · rw [if_pos h1]
        refine iff_of_true rfl (fun h => ?_)
        cases h with
        | head _ _ hdc => exact Nat.lt_asymm h1 hdc
        | tail _ hncd _ => exact hncd h1
      · by_cases h2 : d.val < c.val
        · rw [if_neg h1, if_pos h2]
          refine iff_of_false (by simp) (fun h => h (List.lt.head _ _ h2))
        · rw [if_neg h1, if_neg h2]
          rw [ih ds]
          have hiff : List.lt (d :: ds) (c :: cs) ↔ List.lt ds cs := by
            constructor
            · intro h
              cases h with
              | head _ _ hdc => exact absurd hdc h2
              | tail _ _ htl => exact htl
            · intro h
              exact List.lt.tail h2 h1 h
          exact not_congr hiff.symm

/-- The embedded Python string comparison is the library string order. -/
theorem pyStrLe_iff (a b : String) : pyStrLe a b = true ↔ a ≤ b := by
  rw [String.le_iff_toList_le, ← not_lt]
  have hlex := List.lt_iff_lex_lt b.data a.data
  constructor
  · intro hh hlt
    exact (charListLe_iff a.data b.data).mp hh (hlex.mpr hlt)
  · intro hnl
    exact (charListLe_iff a.data b.data).mpr (fun hl => hnl (hlex.mp hl))

/-- Bool comparison of naturals, in Prop form. -/
theorem ble_false_iff (m n : Nat) : Nat.ble m n = false ↔ n < m := by
  rw [← Bool.not_eq_true, Nat.ble_eq]
  exact Nat.not_le

/-- Claim C7: the top journal list holds at most five entries, is sorted by
descending count, breaks count ties by first-encounter order (the sort is
stable over the tally, whose keys stand in first-encounter order), groups by
exact string equality (each key counts its occurrences among the retained
journal names), and is the five-element prefix of the stably sorted tally. -/
theorem top_journals_ranking (articles : List ArticleRecord) :
    (top_journalsOf articles).length ≤ 5 ∧
    List.Pairwise (fun p q : String × Nat => q.2 ≤ p.2) (top_journalsOf articles) ∧
    (∀ n : Nat,
      (pySortedDesc journalLe (tally (journalNames articles))).filter (fun p => p.2 == n) =
        (tally (journalNames articles)).filter (fun p => p.2 == n)) ∧
    (tally (journalNames articles)).map Prod.fst =
      firstEncounterOrder (journalNames articles) ∧
    (∀ jn : String,
      ((tally (journalNames articles)).lookup jn).getD 0 =
        (journalNames articles).count jn) ∧
    top_journalsOf articles =
      (pySortedDesc journalLe (tally (journalNames articles))).take 5 := by
  have htot : ∀ a b : String × Nat, journalLe a b = false → journalLe b a = true := by
    intro a b h
    simp only [journalLe] at h ⊢
    rw [Nat.ble_eq]
    have := (ble_false_iff _ _).mp h
    omega
  have htrans : ∀ a b c : String × Nat,
      journalLe a b = true → journalLe b c = true → journalLe a c = true := by
    intro a b c h1 h2
    simp only [journalLe, Nat.ble_eq] at h1 h2 ⊢
    omega
  refine ⟨?_, ?_, ?_, tally_keys _, tally_lookup_count _, rfl⟩
  · exact List.length_take_le 5 _
  · have hp := pySortedDesc_pairwise htot htrans (tally (journalNames articles))
    have hp5 : List.Pairwise (fun a b => journalLe a b = true) (top_journalsOf articles) :=
      hp.sublist (List.take_sublist 5 _)
    exact hp5.imp (fun h => by
      simp only [journalLe, Nat.ble_eq] at h
      exact h)
  · intro n
    refine pySortedDesc_filter ?_ _
    intro a b hab hpa
    have h1 : a.2 < b.2 := by
      simp only [journalLe] at hab
      exact (ble_false_iff _ _).mp hab
    have h2 : a.2 = n := eq_of_beq hpa
    exact beq_eq_false_iff_ne.mpr (by omega)

/-- Claim C8: the publication-year distribution is sorted in lexicographically
descending order of the year string; in particular observed years 2021, 2019,
2023 come out ordered 2023, 2021, 2019. -/
theorem publication_years_desc :
    (∀ articles : List ArticleRecord,
      List.Pairwise (fun p q : String × Nat => q.1 ≤ p.1) (publication_yearsOf articles)) ∧
    (publication_yearsOf [yrRec ("2021"), yrRec ("2019"), yrRec ("2023")]).map Prod.fst =
      ["2023", "2021", "2019"] := by
  constructor
  · intro articles
    have htot : ∀ a b : String × Nat, yearLe a b = false → yearLe b a = true := by
      intro a b h
      simp only [yearLe] at h ⊢
      have hn : ¬ b.1 ≤ a.1 := fun hle => by
        have hh := (pyStrLe_iff b.1 a.1).mpr hle
        rw [h] at hh
        exact Bool.false_ne_true hh
      exact (pyStrLe_iff a.1 b.1).mpr (le_of_not_le hn)
    have htrans : ∀ a b c : String × Nat,
        yearLe a b = true → yearLe b c = true → yearLe a c = true := by
      intro a b c h1 h2
      simp only [yearLe] at h1 h2 ⊢
      exact (pyStrLe_iff c.1 a.1).mpr
        (le_trans ((pyStrLe_iff c.1 b.1).mp h2) ((pyStrLe_iff b.1 a.1).mp h1))
    have hp := pySortedDesc_pairwise htot htrans (tally (yearStrings articles))
    exact hp.imp (fun h => (pyStrLe_iff _ _).mp h)
  · decide

end PubmedServer
